import Mathlib

/-!
Shallow embedding of the ELT pipeline execution engine:

* `src/orchestrate/singer/meltano-singer.py` — the `SingerRunner`
  orchestrator (`envsubst`, `file_has_data`, `prepare`, `invoke`, `run`,
  `bookmark`) and its run-directory file layout;
* `src/src/meltano/api/controllers/orchestrations.py` — the stream
  validator nested inside `test_plugin_configuration` (`test_stream`,
  `test_extractor`).

File contents are modelled as byte lists (`List Nat`); a file that may be
absent is an `Option (List Nat)` (`none` = the path does not exist,
`some []` = the file exists with size 0).
-/

/-- The files of the run directory, exactly the five paths the
`SingerRunner` class declares: `tap.config.json`, `tap.properties.json`
(catalog), `target.config.json`, `state.json` (incoming bookmark,
`tap_files['state']`) and `new_state.json` (outgoing bookmark,
`target_files['state']`). -/
structure FS where
  tapConfig : Option (List Nat)
  tapCatalog : Option (List Nat)
  targetConfig : Option (List Nat)
  state : Option (List Nat)
  newState : Option (List Nat)
deriving DecidableEq

/-- `file_has_data(file)` from meltano-singer.py line 20-21:
`file.exists() and file.stat().st_size > 0`. -/
def file_has_data : Option (List Nat) → Bool
  | none => false
  | some c => decide (0 < c.length)

/-- The state of one spawned `envsubst` child process: the bytes it has
already flushed to the destination file and the bytes of its substituted
output it has not written yet. -/
structure EnvsubstJob where
  written : List Nat
  remaining : List Nat
deriving DecidableEq

/-- `envsubst(src, dst)` from meltano-singer.py lines 14-17: it opens the
destination with mode `w+` (create or truncate, synchronously in the
parent) and then calls `subprocess.Popen(["envsubst"], stdin=i, stdout=o)`
WITHOUT waiting for the child.  So at the moment the function returns,
the child has flushed nothing: the destination file exists, is empty, and
the whole substituted output (`substOutput`, the template with
environment placeholders replaced) is still pending. -/
def envsubst (substOutput : List Nat) : EnvsubstJob :=
  { written := [], remaining := substOutput }

/-- One asynchronous scheduler step: the spawned `envsubst` child flushes
one more byte to the destination file. -/
def jobStep : EnvsubstJob → EnvsubstJob
  | { written := w, remaining := [] } => { written := w, remaining := [] }
  | { written := w, remaining := b :: rest } => { written := w ++ [b], remaining := rest }

/-- The destination file's content as any reader sees it: the child
writes directly to the final path (no temporary file, no rename), so a
reader observes exactly the bytes flushed so far. -/
def dstContent (j : EnvsubstJob) : List Nat := j.written

/-- Whether the spawned `envsubst` child has finished writing. -/
def jobComplete (j : EnvsubstJob) : Bool := j.remaining.isEmpty

/-- A Python exception value, as far as this module can produce one. -/
inductive PyError where
  | typeError (msg : String)
deriving DecidableEq

/-- Python 3 semantics of a `raise` statement whose operand is a plain
`str` (meltano-singer.py lines 93 and 96 do `raise f"Tap exited with
{tap_code}"`): a string does not derive from `BaseException`, so the
interpreter discards the operand and raises
`TypeError: exceptions must derive from BaseException`.  The formatted
message is lost. -/
def raiseStr (_s : String) : PyError :=
  PyError.typeError "exceptions must derive from BaseException"

/-- The environment-determined outcome of one `invoke`: the exit code
collected from the tap process, the exit code collected from the target
process, and the bytes the target process wrote to its standard output
(which `invoke` redirects into `new_state.json`). -/
structure RunEnv where
  tapExit : Int
  targetExit : Int
  targetOutput : List Nat
deriving DecidableEq

/-- Observable events of `invoke`, in program order: collecting the tap's
exit code (`p_tap.wait()`), collecting the target's exit code
(`p_target.wait()`), and raising an error. -/
inductive Event where
  | waitTap (code : Int)
  | waitTarget (code : Int)
  | raised (e : PyError)
deriving DecidableEq

/-- Whether an event is the raising of an error. -/
def Event.isRaised : Event → Bool
  | raised _ => true
  | _ => false

namespace SingerRunner

/-- `exec_path(name)` from meltano-singer.py lines 40-41:
`VENVS_DIR.joinpath(name, "bin", name)`, with `VENVS_DIR` defaulting to
`/venvs`. -/
def exec_path (name : String) : String :=
  "/venvs/" ++ name ++ "/bin/" ++ name

/-- `prepare(tap, target)` from meltano-singer.py lines 44-52: it runs
`envsubst` for the tap config, the tap catalog and the target config.
Each `envsubst` call opens its destination with `w+` synchronously in the
parent (create/truncate), then spawns the child without waiting, so when
`prepare` returns each destination file exists and is empty from the
parent's point of view; the substituted bytes arrive asynchronously
(see `EnvsubstJob`).  `prepare` touches neither `state.json` nor
`new_state.json`. -/
def prepare (fs : FS) : FS :=
  { fs with tapConfig := some [], tapCatalog := some [], targetConfig := some [] }

/-- The three `EnvsubstJob`s `prepare` leaves behind at the moment it
returns, given the substituted output of each of the three templates. -/
def prepareJobs (tapCfg tapCat targetCfg : List Nat) : List EnvsubstJob :=
  [envsubst tapCfg, envsubst tapCat, envsubst targetCfg]

/-- The tap command line from meltano-singer.py lines 56-63:
`[exec_path(tap), "-c", tap.config.json, "--catalog",
tap.properties.json]`, plus `["--state", state.json]` exactly when
`file_has_data(state.json)`.  Paths are written relative to the run
directory. -/
def tap_args (fs : FS) (tap : String) : List String :=
  [exec_path tap, "-c", "tap.config.json", "--catalog", "tap.properties.json"]
    ++ (if file_has_data fs.state then ["--state", "state.json"] else [])

/-- The relay command line from meltano-singer.py lines 65-70: `["tee"]`,
plus the side-channel capture path when one is configured (Python
truthiness: `None` and the empty string both mean "not configured"). -/
def tee_args (tapOutputPath : Option String) : List String :=
  ["tee"] ++
    (match tapOutputPath with
     | some p => if p = "" then [] else [p]
     | none => [])

/-- The target command line from meltano-singer.py lines 72-75. -/
def target_args (target : String) : List String :=
  [exec_path target, "-c", "target.config.json"]

/-- `invoke(tap, target)` from meltano-singer.py lines 55-96, as a state
transformer on the run directory.  Opening the target's stdout
redirection with `open("w+")` (line 79) creates/truncates
`new_state.json`; by the time both waits have returned the file holds
exactly the bytes the target wrote (`env.targetOutput`).  Then line 92
checks the tap's code and line 95 the target's code, each `raise`-ing a
plain f-string on a non-zero code (see `raiseStr`).  Returns the
resulting file state together with the raised error, if any. -/
def invoke (env : RunEnv) (fs : FS) : FS × Option PyError :=
  let fs1 : FS := { fs with newState := some env.targetOutput }
  if env.tapExit ≠ 0 then
    (fs1, some (raiseStr ("Tap exited with " ++ toString env.tapExit)))
  else if env.targetExit ≠ 0 then
    (fs1, some (raiseStr ("Target exited with " ++ toString env.targetExit)))
  else
    (fs1, none)

/-- The event trace of `invoke` (meltano-singer.py lines 89-96): straight-
line code that first waits on the tap, then waits on the target, and only
then — with both codes in hand — raises on a non-zero code (tap checked
first). -/
def invokeTrace (env : RunEnv) : List Event :=
  [Event.waitTap env.tapExit, Event.waitTarget env.targetExit] ++
    (if env.tapExit ≠ 0 then
      [Event.raised (raiseStr ("Tap exited with " ++ toString env.tapExit))]
    else if env.targetExit ≠ 0 then
      [Event.raised (raiseStr ("Target exited with " ++ toString env.targetExit))]
    else [])

/-- `bookmark()` from meltano-singer.py lines 103-107: if
`new_state.json` is missing or empty, do nothing; otherwise
`new_state.json.replace(state.json)` — an atomic rename that makes
`state.json` hold the outgoing bytes and removes `new_state.json`. -/
def bookmark (fs : FS) : FS :=
  if file_has_data fs.newState then
    { fs with state := fs.newState, newState := none }
  else
    fs

/-- `run(tap, target)` from meltano-singer.py lines 98-101: `prepare`,
then `invoke`, then `bookmark`, in that order; an error raised by
`invoke` propagates and `bookmark` is never executed. -/
def run (env : RunEnv) (fs : FS) : FS × Option PyError :=
  let r := invoke env (prepare fs)
  match r.2 with
  | some e => (r.1, some e)
  | none => (bookmark r.1, none)

end SingerRunner

/-- One line of the plugin's standard output, as `test_stream` consumes
it: either a JSON object carrying the `"type"` discriminator (`msg t`),
or a line on which `json.loads` raises (`badJson`), or a JSON value
without a usable `"type"` key, on which the subscript raises
(`noType`). -/
inductive Line where
  | msg (t : String)
  | badJson
  | noType
deriving DecidableEq

/-- How a call of `test_stream` ends: a normal `return` with a boolean,
or an exception escaping the coroutine. -/
inductive StreamOutcome where
  | ok (result : Bool)
  | exc
deriving DecidableEq

/-- `test_stream(tap_stream)` from orchestrations.py lines 234-241,
over the list of lines the plugin process emits before closing its
output; the second component counts the lines actually read.
`while not tap_stream.at_eof()` — end of input returns `False`;
`json.loads(message)` / `json_dict["type"]` — a bad line raises; a
`"RECORD"` discriminator returns `True` at once, reading nothing
further. -/
def test_stream : List Line → StreamOutcome × Nat
  | [] => (StreamOutcome.ok false, 0)
  | Line.msg t :: rest =>
    if t = "RECORD" then (StreamOutcome.ok true, 1)
    else ((test_stream rest).1, (test_stream rest).2 + 1)
  | Line.badJson :: _ => (StreamOutcome.exc, 1)
  | Line.noType :: _ => (StreamOutcome.exc, 1)

/-- The launched plugin process, reduced to whether it is running. -/
structure PluginProcess where
  running : Bool
deriving DecidableEq

/-- The module-level names imported at the top of orchestrations.py
(lines 1-31).  `psutil` is not among them. -/
def orchestrationsImports : List String :=
  ["asyncio", "json", "logging", "flask",
   "meltano.core.job", "meltano.core.behavior.canonical",
   "meltano.core.plugin", "meltano.core.plugin.error",
   "meltano.core.plugin.settings_service",
   "meltano.core.plugin_discovery_service",
   "meltano.core.plugin_invoker", "meltano.core.plugin_install_service",
   "meltano.core.project", "meltano.core.project_add_service",
   "meltano.core.config_service", "meltano.core.schedule_service",
   "meltano.core.utils", "meltano.core.logging", "meltano.cli.add",
   "meltano.api.models", "meltano.api.json", "meltano.api.executor"]

/-- Whether the name `psutil` is bound in the module. -/
def psutilImported : Bool := orchestrationsImports.contains "psutil"

/-- The `finally` block of `test_extractor` (orchestrations.py lines
258-263): `psutil.Process(process.pid).terminate()` inside a
`try/except Exception: logging.debug(err)`.  When `psutil` is an
imported name this kills the process; when it is not, evaluating
`psutil` raises `NameError`, the inner `except` swallows it, and the
process is left exactly as it was. -/
def finallyTerminate (p : PluginProcess) : PluginProcess :=
  if psutilImported then { running := false } else p

/-- `test_extractor(config)` from orchestrations.py lines 243-263,
given the lines the launched plugin emits and whether that process is
still running when the terminal point is reached (`stillRunning` is
true in particular on the early-return `RECORD` path, where the plugin
keeps producing).  The `except Exception: return False` turns any
escaped exception into `False`; the `finally` block then runs
`finallyTerminate`.  Returns the HTTP-visible boolean and the plugin
process's final state. -/
def test_extractor (lines : List Line) (stillRunning : Bool) : Bool × PluginProcess :=
  let result :=
    match (test_stream lines).1 with
    | StreamOutcome.ok b => b
    | StreamOutcome.exc => false
  (result, finallyTerminate { running := stillRunning })

/-- A run directory with none of the five files present. -/
def fs0 : FS := { tapConfig := none, tapCatalog := none, targetConfig := none,
                  state := none, newState := none }

/-- A run directory whose outgoing-state file holds one byte. -/
def fsW : FS := { fs0 with newState := some [1] }

open SingerRunner

/-- Helper: reading lines that are all valid non-`RECORD` messages neither
changes the outcome of `test_stream` on the remainder nor does anything but
add their count to the number of lines read. -/
theorem test_stream_append (pre rest : List Line)
    (h : ∀ l ∈ pre, ∃ t, l = Line.msg t ∧ t ≠ "RECORD") :
    (test_stream (pre ++ rest)).1 = (test_stream rest).1 ∧
    (test_stream (pre ++ rest)).2 = (test_stream rest).2 + pre.length := by
  induction pre with
  | nil => simp
  | cons l pre ih =>
    have hpre : ∀ x ∈ pre, ∃ t, x = Line.msg t ∧ t ≠ "RECORD" :=
      fun x hx => h x (List.mem_cons_of_mem l hx)
    obtain ⟨t, rfl, ht⟩ := h l (List.mem_cons_self l pre)
    obtain ⟨ih1, ih2⟩ := ih hpre
    constructor
    · simp [test_stream, ht, ih1]
    · simp [test_stream, ht, ih2]
      omega

/-- Helper: the resolved tap executable path is never the literal
`--state` flag, because it always starts with the venvs root. -/
theorem exec_path_ne_state_flag (tap : String) : exec_path tap ≠ "--state" := by
  intro h
  have hl := congrArg String.length h
  have h7 : ("/venvs/" : String).length = 7 := rfl
  have h5 : ("/bin/" : String).length = 5 := rfl
  have hsf : ("--state" : String).length = 7 := rfl
  rw [exec_path, String.length_append, String.length_append, String.length_append,
    h7, h5, hsf] at hl
  omega

/-- Claim C1: when both the tap and the target exit with code 0, a
non-empty outgoing-state file (`new_state.json`) replaces the
incoming-state file (`state.json`) by rename after `run()`, so the
incoming file equals the outgoing content exactly and the outgoing path
is gone; a zero-byte outgoing file leaves the incoming file untouched,
and a missing outgoing file makes `bookmark` a no-op. -/
theorem run_commits_nonempty_state (env : RunEnv) (fs : FS)
    (h0 : env.tapExit = 0) (h1 : env.targetExit = 0) :
    (env.targetOutput ≠ [] →
      (run env fs).1.state = some env.targetOutput
      ∧ (run env fs).1.newState = none)
    ∧ (env.targetOutput = [] → (run env fs).1.state = fs.state)
    ∧ (fs.newState = none → bookmark fs = fs) := by
  refine ⟨?_, ?_, ?_⟩
  · intro hne
    have hfd : file_has_data (some env.targetOutput) = true := by
      simp [file_has_data, List.length_pos]
      exact hne
    constructor <;>
      simp [run, invoke, prepare, bookmark, h0, h1, hfd]
  · intro he
    simp [run, invoke, prepare, bookmark, h0, h1, he, file_has_data]
  · intro hn
    simp [bookmark, hn, file_has_data]

/-- Witness for C1 at the concrete run `⟨0, 0, [42]⟩` on an empty run
directory. -/
theorem run_commits_nonempty_state_witness :
    (run ⟨0, 0, [42]⟩ fs0).1.state = some [42]
    ∧ (run ⟨0, 0, [42]⟩ fs0).1.newState = none
    ∧ bookmark fs0 = fs0 :=
  ⟨((run_commits_nonempty_state ⟨0, 0, [42]⟩ fs0 rfl rfl).1 (by decide)).1,
   ((run_commits_nonempty_state ⟨0, 0, [42]⟩ fs0 rfl rfl).1 (by decide)).2,
   (run_commits_nonempty_state ⟨0, 0, [42]⟩ fs0 rfl rfl).2.2 rfl⟩

/-- Claim C2: when the tap or the target exits non-zero, `invoke` raises
an error (for all that `raise <str>` degrades it to a `TypeError`, an
exception is raised), so `run` stops before `bookmark` and the
incoming-state file is exactly what it was before the run. -/
theorem failed_run_preserves_state (env : RunEnv) (fs : FS)
    (h : env.tapExit ≠ 0 ∨ env.targetExit ≠ 0) :
    (run env fs).2.isSome = true
    ∧ (run env fs).1.state = fs.state := by
  by_cases ht : env.tapExit = 0
  · have hg : env.targetExit ≠ 0 := by tauto
    constructor <;> simp [run, invoke, prepare, ht, hg]
  · constructor <;> simp [run, invoke, prepare, ht]

/-- Witness for C2 at the concrete failed run `⟨1, 0, [7]⟩`. -/
theorem failed_run_preserves_state_witness :
    (run ⟨1, 0, [7]⟩ fsW).2.isSome = true
    ∧ (run ⟨1, 0, [7]⟩ fsW).1.state = fsW.state :=
  failed_run_preserves_state ⟨1, 0, [7]⟩ fsW (Or.inl (by decide))

/-- Claim C3: the trace of every `invoke` begins with collecting the
tap's exit code, then collecting the target's exit code — the target's
wait completes even when the tap exited non-zero — and anything after
those two events is only the raising of an error. -/
theorem exit_collection_ordered (env : RunEnv) :
    ∃ tail, invokeTrace env
        = Event.waitTap env.tapExit :: Event.waitTarget env.targetExit :: tail
      ∧ ∀ e ∈ tail, e.isRaised = true := by
  refine ⟨_, rfl, ?_⟩
  intro e he
  by_cases ht : env.tapExit ≠ 0
  · simp [ht] at he
    simp [he, Event.isRaised]
  · by_cases hg : env.targetExit ≠ 0
    · simp [ht, hg] at he
      simp [he, Event.isRaised]
    · simp [ht, hg] at he

/-- Claim C4 (code bug): `raise f"Tap exited with {tap_code}"` raises a
plain string, which Python 3 turns into
`TypeError: exceptions must derive from BaseException`; the error that
reaches the caller carries neither the process name nor the exit code,
and a tap failure is indistinguishable from a target failure. -/
theorem raise_loses_failure_kind :
    (invoke ⟨1, 0, []⟩ fs0).2 = (invoke ⟨0, 1, []⟩ fs0).2
    ∧ (invoke ⟨1, 0, []⟩ fs0).2
        = some (PyError.typeError "exceptions must derive from BaseException") :=
  ⟨rfl, rfl⟩

/-- Claim C5 (code bug): `envsubst` spawns the substitution process with
`Popen` and returns without waiting, writing directly to the destination
path; at the moment `prepare` returns, every destination file is empty,
and a reader can observe a partially written file (here: one byte of a
two-byte document) at the final path. -/
theorem envsubst_async_not_atomic :
    jobComplete (envsubst [104, 105]) = false
    ∧ dstContent (envsubst [104, 105]) = []
    ∧ dstContent (jobStep (envsubst [104, 105])) = [104]
    ∧ dstContent (jobStep (envsubst [104, 105])) ≠ [104, 105]
    ∧ (∀ j ∈ prepareJobs [104, 105] [1] [2], jobComplete j = false) := by
  refine ⟨rfl, rfl, rfl, by decide, by decide⟩

/-- Claim C6: `test_stream` returns `True` at the first `RECORD`
message, having read exactly the lines up to and including it and
nothing past it; it returns `False` at end-of-input when every line was
a valid non-`RECORD` message — in particular on a single `SCHEMA` line
followed by stream close. -/
theorem validator_confirms_on_first_record (pre post : List Line)
    (h : ∀ l ∈ pre, ∃ t, l = Line.msg t ∧ t ≠ "RECORD") :
    (test_stream (pre ++ Line.msg "RECORD" :: post)).1 = StreamOutcome.ok true
    ∧ (test_stream (pre ++ Line.msg "RECORD" :: post)).2 = pre.length + 1
    ∧ (test_stream pre).1 = StreamOutcome.ok false := by
  obtain ⟨h1, h2⟩ := test_stream_append pre (Line.msg "RECORD" :: post) h
  obtain ⟨h3, _⟩ := test_stream_append pre [] h
  refine ⟨?_, ?_, ?_⟩
  · rw [h1]; simp [test_stream]
  · rw [h2]; simp [test_stream]; omega
  · simpa using h3

/-- Witness for C6: a `SCHEMA` line, then `RECORD`, then an unread bad
line; and the `SCHEMA`-only stream. -/
theorem validator_confirms_witness :
    (test_stream ([Line.msg "SCHEMA"] ++ Line.msg "RECORD" :: [Line.badJson])).1
      = StreamOutcome.ok true
    ∧ (test_stream ([Line.msg "SCHEMA"] ++ Line.msg "RECORD" :: [Line.badJson])).2
      = [Line.msg "SCHEMA"].length + 1
    ∧ (test_stream [Line.msg "SCHEMA"]).1 = StreamOutcome.ok false :=
  validator_confirms_on_first_record [Line.msg "SCHEMA"] [Line.badJson] (by
    intro l hl
    simp at hl
    exact ⟨"SCHEMA", hl, by decide⟩)

/-- Counterexample to claim C7 as stated: a line that is not valid JSON
makes `test_extractor` return plain `False` — the very value an ordinary
unconfirmed stream produces — and no distinct error reaches the caller. -/
theorem decode_error_not_distinct :
    (test_extractor [Line.badJson] true).1 = false
    ∧ (test_extractor [Line.noType] true).1 = false
    ∧ (test_extractor [Line.badJson] true).1
        = (test_extractor [Line.msg "SCHEMA"] true).1
    ∧ (test_stream [Line.badJson]).1 = StreamOutcome.exc :=
  ⟨rfl, rfl, rfl, rfl⟩

/-- Claim C7 as amended: a decode failure aborts `test_stream`
immediately — the exception escapes it with no later line read — but
`test_extractor`'s blanket `except Exception` converts it into an
ordinary unconfirmed `False` instead of surfacing a distinct error. -/
theorem decode_error_aborts_but_swallowed (pre post : List Line)
    (h : ∀ l ∈ pre, ∃ t, l = Line.msg t ∧ t ≠ "RECORD") :
    (test_stream (pre ++ Line.badJson :: post)).1 = StreamOutcome.exc
    ∧ (test_stream (pre ++ Line.badJson :: post)).2 = pre.length + 1
    ∧ (test_extractor (pre ++ Line.badJson :: post) true).1 = false := by
  obtain ⟨h1, h2⟩ := test_stream_append pre (Line.badJson :: post) h
  refine ⟨?_, ?_, ?_⟩
  · rw [h1]; simp [test_stream]
  · rw [h2]; simp [test_stream]; omega
  · simp [test_extractor, h1, test_stream]

/-- Witness for the amended C7: `SCHEMA`, then a bad line, with a
`RECORD` line after it that is never read. -/
theorem decode_error_aborts_witness :
    (test_stream ([Line.msg "SCHEMA"] ++ Line.badJson :: [Line.msg "RECORD"])).1
      = StreamOutcome.exc
    ∧ (test_stream ([Line.msg "SCHEMA"] ++ Line.badJson :: [Line.msg "RECORD"])).2
      = [Line.msg "SCHEMA"].length + 1
    ∧ (test_extractor ([Line.msg "SCHEMA"] ++ Line.badJson :: [Line.msg "RECORD"]) true).1
      = false :=
  decode_error_aborts_but_swallowed [Line.msg "SCHEMA"] [Line.msg "RECORD"] (by
    intro l hl
    simp at hl
    exact ⟨"SCHEMA", hl, by decide⟩)

/-- Claim C8 (code bug): `psutil` is never imported in
orchestrations.py, so the `finally` block's
`psutil.Process(process.pid).terminate()` raises `NameError`, the inner
`except` swallows it, and in every terminal case — confirmed, decode
error, exhausted — a still-running plugin process is left running. -/
theorem terminate_never_fires :
    psutilImported = false
    ∧ (test_extractor [Line.msg "RECORD", Line.msg "STATE"] true).1 = true
    ∧ (test_extractor [Line.msg "RECORD", Line.msg "STATE"] true).2.running = true
    ∧ (test_extractor [Line.badJson] true).2.running = true
    ∧ (test_extractor [Line.msg "SCHEMA"] true).2.running = true := by
  refine ⟨by decide, by decide, by decide, by decide, by decide⟩

/-- Claim C9: the tap command line carries the `--state` flag exactly
when the incoming-state file exists with non-zero size; with no
incoming-state file there is no `--state` flag. -/
theorem tap_state_flag_iff (fs : FS) (tap : String) :
    ("--state" ∈ tap_args fs tap ↔ file_has_data fs.state = true)
    ∧ (fs.state = none → "--state" ∉ tap_args fs tap) := by
  have hne := exec_path_ne_state_flag tap
  have hmain : "--state" ∈ tap_args fs tap ↔ file_has_data fs.state = true := by
    unfold tap_args
    cases hb : file_has_data fs.state with
    | false =>
      simp only [hb, Bool.false_eq_true, if_false, List.append_nil, iff_false]
      intro hmem
      rcases List.mem_cons.mp hmem with hh | hmem
      · exact hne hh.symm
      · revert hmem
        decide
    | true =>
      simp only [hb, if_true, iff_true]
      exact List.mem_append.mpr (Or.inr (by decide))
  refine ⟨hmain, fun hn hmem => ?_⟩
  have := hmain.mp hmem
  rw [hn] at this
  simp [file_has_data] at this

/-- Witness for C9 on the empty run directory: no incoming-state file,
no `--state` flag. -/
theorem tap_state_flag_iff_witness :
    ("--state" ∈ tap_args fs0 "tap-gitlab" ↔ file_has_data fs0.state = true)
    ∧ "--state" ∉ tap_args fs0 "tap-gitlab" :=
  ⟨(tap_state_flag_iff fs0 "tap-gitlab").1,
   (tap_state_flag_iff fs0 "tap-gitlab").2 rfl⟩

/-- Claim C10: committing a non-empty outgoing-state file renames it
away, so its path no longer exists afterwards; consequently a second
`bookmark` finds no outgoing data and changes nothing — `bookmark` is
idempotent. -/
theorem bookmark_idempotent (fs : FS) :
    bookmark (bookmark fs) = bookmark fs
    ∧ (file_has_data fs.newState = true → (bookmark fs).newState = none) := by
  constructor
  · by_cases h : file_has_data fs.newState = true
    · have h2 : bookmark fs = { fs with state := fs.newState, newState := none } := by
        simp [bookmark, h]
      rw [h2]
      simp [bookmark, file_has_data]
    · rw [Bool.not_eq_true] at h
      simp [bookmark, h]
  · intro h
    simp [bookmark, h]

/-- Witness for C10 on a run directory whose outgoing-state file holds
one byte. -/
theorem bookmark_idempotent_witness :
    bookmark (bookmark fsW) = bookmark fsW
    ∧ (bookmark fsW).newState = none :=
  ⟨(bookmark_idempotent fsW).1, (bookmark_idempotent fsW).2 rfl⟩
